import Mathlib

set_option autoImplicit false

/-!
Shallow embedding of the drivechat ingestion pipeline
(`src/main.py`, `src/services/db.py`, `src/services/embedding.py`).

External collaborators (SQLAlchemy sessions, the OpenAI embedding provider,
the Google Drive client, the llama-index loader/splitter) are modelled as
explicit state passing and oracle functions; a Python exception raised by a
call is modelled as an `Except`/`Option` error value or as a dedicated
oracle outcome.  Numeric vector payloads are carried opaquely as `List Int`
(no claim inspects the numeric values, only presence, emptiness and count).
-/

namespace DriveChat

/-- Vector payload of an embedding, carried opaquely. -/
abbrev Vec := List Int

/-- Row of the `users` table.  Modelled from the spec: the `models` package's
`__init__.py` and the `User` model class are not under `src/`; per spec §3 a
User has a unique email, a display name and an active flag. -/
structure UserRow where
  email : String
  display_name : String
  active : Bool
deriving DecidableEq, Repr

/-- Row of the `items` table as used by `DatabaseService.insert_document_with_embeddings`
(src/services/db.py lines 75-82).  Modelled from the spec for the parts the
`models` package (absent from `src/`) decides: the identifier is generated on
insert (spec §3 "generated identifier"), and the owner/conversation references
are the `owner_id`/`conversation_id` keywords the coordinator passes. -/
structure ItemRow where
  id : Nat
  file_name : String
  mime_type : String
  uri : String
  owner_id : Nat
  conversation_id : Nat
deriving DecidableEq, Repr

/-- Row of the `embeddings` table, as built in src/services/db.py lines 89-94:
item reference, page number, chunk text and the vector (`node.embedding`,
which may be Python `None`, hence `Option Vec`). -/
structure EmbRow where
  item_id : Nat
  page : Int
  chunk_text : String
  embedding : Option Vec
deriving DecidableEq, Repr

/-- A llama-index node as consumed by the coordinator: `extra_info['page_label']`
(absent modelled as `none`, with the source's default `-1` applied at read time),
`get_content()`, and the `embedding` attribute set by `process_document`. -/
structure Node where
  page_label : Option Int
  content : String
  embedding : Option Vec
deriving DecidableEq, Repr

/-- The relational store: committed rows plus a counter for generated item ids. -/
structure Store where
  users : List UserRow
  items : List ItemRow
  embeddings : List EmbRow
  nextId : Nat
deriving DecidableEq, Repr

/-- Fault oracle for one call to `insert_document_with_embeddings`: which
database operation (if any) raises.  `atEmbFlush i` raises at the flush of the
`i`-th embedding row (no effect when `i` is out of range, i.e. the run never
reaches such a flush). -/
inductive Fault where
  | noFault
  | atItemFlush
  | atEmbFlush (i : Nat)
  | atCommit
deriving DecidableEq, Repr

/-- Whether a fault actually fires during a run over `n` nodes. -/
def Fault.triggers : Fault → Nat → Bool
  | .noFault, _ => false
  | .atItemFlush, _ => true
  | .atEmbFlush i, n => decide (i < n)
  | .atCommit, _ => true

/-- Metadata dictionary as read by the coordinator
(src/services/db.py lines 76-78: `file_name`, `mime_type`, `uri`). -/
structure Metadata where
  file_name : String
  mime_type : String
  uri : String
deriving DecidableEq, Repr

/-- Embedding row built for one node (src/services/db.py lines 88-94):
`page = int(node.extra_info.get('page_label', -1))`. -/
def mkEmbedding (itemId : Nat) (node : Node) : EmbRow :=
  { item_id := itemId
    page := node.page_label.getD (-1)
    chunk_text := node.content
    embedding := node.embedding }

/-- The per-node flush loop of src/services/db.py lines 87-96, run inside the
session's transaction: rows are pending (not committed); `none` means the
flush of node number `idx` raised. -/
def flushEmbeddings (itemId : Nat) (fault : Fault) : List Node → Nat → Option (List EmbRow)
  | [], _ => some []
  | node :: rest, idx =>
    if fault = .atEmbFlush idx then none
    else
      match flushEmbeddings itemId fault rest (idx + 1) with
      | none => none
      | some embs => some (mkEmbedding itemId node :: embs)

/-- `DatabaseService.insert_document_with_embeddings` (src/services/db.py
lines 64-111).  A fresh session is opened over the store; the Item row is
flushed, then one Embedding row per node, then the transaction commits.  Any
raise (item flush, an embedding flush, or the commit) hits the inner handler,
which rolls the session back — discarding every pending row, so the store is
unchanged — and re-raises; the outer handler swallows the exception and
returns `None`.  On success the persisted Item is returned and the committed
rows are appended to the store. -/
def insert_document_with_embeddings (store : Store) (nodes : List Node)
    (metadata : Metadata) (owner_id conversation_id : Nat) (fault : Fault) :
    Option ItemRow × Store :=
  if fault = .atItemFlush then (none, store)
  else
    let item : ItemRow :=
      { id := store.nextId
        file_name := metadata.file_name
        mime_type := metadata.mime_type
        uri := metadata.uri
        owner_id := owner_id
        conversation_id := conversation_id }
    match flushEmbeddings item.id fault nodes 0 with
    | none => (none, store)
    | some embs =>
      if fault = .atCommit then (none, store)
      else
        (some item,
          { store with
              items := store.items ++ [item]
              embeddings := store.embeddings ++ embs
              nextId := store.nextId + 1 })

/-- Python `email.split('@')[0]`: the part of the key before the first `@`
(the whole key when there is no `@`). -/
def emailLocalPart (email : String) : String :=
  (email.splitOn "@").headD email

/-- `DatabaseService.get_or_create_user` (src/services/db.py lines 113-154):
query the first user with the given email; if none, create one with
`display_name or email.split('@')[0]` and `active=True` and commit. -/
def get_or_create_user (store : Store) (email : String)
    (display_name : Option String) : UserRow × Store :=
  match store.users.find? (fun u => u.email == email) with
  | some u => (u, store)
  | none =>
    let u : UserRow :=
      { email := email
        display_name := display_name.getD (emailLocalPart email)
        active := true }
    (u, { store with users := store.users ++ [u] })

/-- The required table names, in the order src/services/db.py checks and
creates them (lines 33-39 and 166). -/
def requiredTables : List String :=
  ["users", "conversations", "items", "embeddings", "messages"]

/-- Catalog state of the store: which tables exist. -/
structure SchemaState where
  tables : List String
deriving DecidableEq, Repr

/-- `DatabaseService.verify_tables` (src/services/db.py lines 156-185): checks
each required table's existence in the catalog, returning `false` at the first
missing one and `true` when all exist.  `connOk = false` models the query
raising, in which case the handler returns `false`. -/
def verify_tables (connOk : Bool) (s : SchemaState) : Bool :=
  connOk && requiredTables.all (fun t => s.tables.contains t)

/-- Observable bootstrap action, in order of occurrence. -/
inductive InitEvent where
  | dropAll
  | created (tbl : String)
deriving DecidableEq, Repr

/-- Exception surfaced by the constructor (the process cannot start). -/
inductive InitError where
  | createFailed (tbl : String)
  | verifyFailed
deriving DecidableEq, Repr

/-- `Base.metadata.drop_all` (src/services/db.py line 30): drops the model
tables that are present; unrelated tables are untouched. -/
def dropCoreTables (s : SchemaState) : SchemaState :=
  { tables := s.tables.filter (fun t => !requiredTables.contains t) }

/-- The creation loop of src/services/db.py lines 42-48: create each table in
list order; a failed creation logs and re-raises, aborting the constructor. -/
def createTables (createOk : String → Bool) :
    List String → SchemaState → Except InitError (SchemaState × List InitEvent)
  | [], s => .ok (s, [])
  | t :: rest, s =>
    if createOk t then
      match createTables createOk rest { tables := s.tables ++ [t] } with
      | .ok (s1, evs) => .ok (s1, .created t :: evs)
      | .error e => .error e
    else .error (.createFailed t)

/-- `DatabaseService.__init__` (src/services/db.py lines 11-62) after enabling
the vector extension: if `verify_tables` fails, drop all model tables and
recreate them in the order of `requiredTables`; then verify again (line 51)
and raise `Exception("Failed to verify table creation")` if that fails.
`verifyConnOk k` tells whether the `k`-th verification's catalog queries
succeed (a raising query makes `verify_tables` return `false`). -/
def db_init (s : SchemaState) (verifyConnOk : Nat → Bool) (createOk : String → Bool) :
    Except InitError (SchemaState × List InitEvent) :=
  if verify_tables (verifyConnOk 0) s then
    if verify_tables (verifyConnOk 1) s then .ok (s, []) else .error .verifyFailed
  else
    match createTables createOk requiredTables (dropCoreTables s) with
    | .error e => .error e
    | .ok (s1, evs) =>
      if verify_tables (verifyConnOk 1) s1 then .ok (s1, .dropAll :: evs)
      else .error .verifyFailed

/-- Outcome of one provider call `aget_text_embedding(chunk)`: the call raised,
or it returned a value (`none` models Python `None`; `some []` an empty
vector — both falsy under Python `if embedding:`). -/
inductive EmbedResult where
  | raised
  | value (v : Option Vec)
deriving DecidableEq, Repr

/-- Python truthiness of the returned embedding as tested by
`if embedding:` (src/services/embedding.py line 111). -/
def EmbedResult.truthy : EmbedResult → Bool
  | .raised => false
  | .value none => false
  | .value (some v) => !v.isEmpty

/-- The vector carried by a non-raising result ([] when there is none). -/
def EmbedResult.vecOf : EmbedResult → Vec
  | .value (some v) => v
  | _ => []

/-- Loop body of `EmbeddingService.embed_chunks` (src/services/embedding.py
lines 107-116), with `idx` numbering the provider calls in order: a raising
call is logged and skipped (`continue`); a returned value is appended only
when truthy. -/
def embedChunksAux (oracle : Nat → EmbedResult) :
    List String → Nat → List (String × Vec)
  | [], _ => []
  | c :: rest, idx =>
    match oracle idx with
    | .raised => embedChunksAux oracle rest (idx + 1)
    | .value none => embedChunksAux oracle rest (idx + 1)
    | .value (some v) =>
      if v.isEmpty then embedChunksAux oracle rest (idx + 1)
      else (c, v) :: embedChunksAux oracle rest (idx + 1)

/-- `EmbeddingService.embed_chunks` (src/services/embedding.py lines 97-116). -/
def embed_chunks (oracle : Nat → EmbedResult) (chunks : List String) :
    List (String × Vec) :=
  embedChunksAux oracle chunks 0

/-- The pair kept for call number `i` on chunk `c`, used to characterise
`embed_chunks`: kept exactly when the provider returns a truthy embedding. -/
def keptPair (oracle : Nat → EmbedResult) (i : Nat) (c : String) :
    Option (String × Vec) :=
  match oracle i with
  | .value (some v) => if v.isEmpty then none else some (c, v)
  | _ => none

/-- `EmbeddingService._chunk_text` (src/services/embedding.py lines 64-78):
delegate to the text splitter; if it raises, log and return the original text
as a single chunk.  Total by construction: no exception leaves this function. -/
def chunk_text (splitText : String → Except Unit (List String)) (text : String) :
    List String :=
  match splitText text with
  | .ok chunks => chunks
  | .error _ => [text]

/-- A node before embedding, as produced by the sentence splitter in
`process_document` (src/main.py line 119). -/
structure RawNode where
  page_label : Option Int
  content : String
deriving DecidableEq, Repr

/-- Embedding loop of `process_document` (src/main.py lines 122-123):
`node.embedding = await embedding_model.aget_text_embedding(...)` for each
node in order.  A raising call propagates out of the loop, aborting the whole
document (caught at line 127 and re-raised as a generic failure). -/
def embedNodesAux (oracle : Nat → EmbedResult) :
    List RawNode → Nat → Except Unit (List Node)
  | [], _ => .ok []
  | n :: rest, idx =>
    match oracle idx with
    | .raised => .error ()
    | .value v =>
      match embedNodesAux oracle rest (idx + 1) with
      | .ok nodes => .ok ({ page_label := n.page_label, content := n.content, embedding := v } :: nodes)
      | .error e => .error e

/-- `process_document` (src/main.py lines 103-128): load and split the
document (`loaded` is the splitter's output, `.error` when loading or
splitting raises), then embed every node sequentially; any raise anywhere is
re-raised as `Exception("Failed to process document: ...")`. -/
def process_document (loaded : Except Unit (List RawNode))
    (oracle : Nat → EmbedResult) : Except Unit (List Node) :=
  match loaded with
  | .error _ => .error ()
  | .ok raw => embedNodesAux oracle raw 0

/-- Request body of `POST /api/v1/upload` (src/main.py lines 24-26). -/
structure DriveUrl where
  driver_id : String
  conversation_id : String
deriving DecidableEq, Repr

/-- The authenticated user as read from the validated token (src/main.py
lines 36-37): `owner` and `verified` are attribute value strings; Python
`if not verified:` fires exactly when the string is empty. -/
structure TokenUser where
  owner : String
  verified : String
deriving DecidableEq, Repr

/-- Raw Google Drive file metadata as consumed by `metadata_handler`
(src/main.py lines 140-145), each field via `metadata.get(...)`. -/
structure RawFileMeta where
  name : Option String
  gid : Option String
  webViewLink : Option String
  mimeType : Option String
deriving DecidableEq, Repr

/-- Output of `metadata_handler` plus the two keys `upload_file` adds
(src/main.py lines 70-72): `conversation_id` and `owner`. -/
structure FormattedMetadata where
  file_name : Option String
  gid : Option String
  uri : Option String
  mime_type : Option String
  conversation_id : String
  owner : String
deriving DecidableEq, Repr

/-- `metadata_handler` (src/main.py lines 130-145) followed by the
`conversation_id`/`owner` insertions of lines 71-72. -/
def metadata_handler (m : RawFileMeta) (conversation_id owner : String) :
    FormattedMetadata :=
  { file_name := m.name
    gid := m.gid
    uri := m.webViewLink
    mime_type := m.mimeType
    conversation_id := conversation_id
    owner := owner }

/-- Result of `gclient.download_file` (src/main.py line 54): a success flag
and the `files` metadata (absent modelled as `none`). -/
structure DownloadResult where
  success : Bool
  files : Option RawFileMeta
deriving DecidableEq, Repr

/-- The Google Drive client as an oracle: `get_gdrive_id` returns a file id
(`none` models Python `None`) and a file type string; `download_file`
returns a `DownloadResult`. -/
structure GdriveEnv where
  resolve : String → Option String × String
  download : String → DownloadResult

/-- Observable step of one `upload_file` call, in order of occurrence.
`identityResolved` would mark a call to `get_or_create_user`; `upload_file`
never performs one. -/
inductive UploadEvent where
  | downloadAttempted
  | processDocumentCalled
  | dbInsertAttempted
  | identityResolved
deriving DecidableEq, Repr

/-- Response of one `upload_file` call: the success payload of src/main.py
lines 83-90, or an HTTP error status. -/
inductive UploadOutcome where
  | ok (conversation_id owner : String) (nodeCount : Nat)
  | httpError (status : Nat)
deriving DecidableEq, Repr

/-- The database call of src/main.py line 75:
`db_service.insert_document_with_embeddings(nodes, formatted_metadata)`
passes two positional arguments, but the method declared in
src/services/db.py lines 64-70 requires four
(`nodes`, `metadata`, `owner_id`, `conversation_id`).  In Python this call
raises `TypeError: ... missing 2 required positional arguments` before the
method body runs, so the call site itself raises on every invocation. -/
def insertCallTwoArgs (_nodes : List Node) (_formatted : FormattedMetadata) :
    Except Unit ItemRow :=
  .error ()

/-- `upload_file` (src/main.py lines 34-101).  The verification check at
line 38 precedes the outer `try`, so it alone surfaces as 403; every
exception raised inside the `try` blocks — including the `HTTPException`s of
lines 43, 52, 57, 66 and 77, since `except Exception` catches them — is
re-wrapped by lines 91-95 and/or 97-101 into a 500 response.  The returned
event list records which pipeline steps were reached. -/
def upload_file (req : DriveUrl) (user : TokenUser) (env : GdriveEnv)
    (loaded : Except Unit (List RawNode)) (oracle : Nat → EmbedResult) :
    UploadOutcome × List UploadEvent :=
  if user.verified = "" then (.httpError 403, [])
  else
    match env.resolve req.driver_id with
    | (none, _) => (.httpError 500, [])
    | (some fid, ftype) =>
      if ftype ≠ "file" then (.httpError 500, [])
      else
        let dl := env.download fid
        if !dl.success then (.httpError 500, [.downloadAttempted])
        else
          match dl.files with
          | none => (.httpError 500, [.downloadAttempted])
          | some md =>
            match process_document loaded oracle with
            | .error _ => (.httpError 500, [.downloadAttempted, .processDocumentCalled])
            | .ok nodes =>
              match insertCallTwoArgs nodes (metadata_handler md req.conversation_id user.owner) with
              | .error _ =>
                (.httpError 500, [.downloadAttempted, .processDocumentCalled, .dbInsertAttempted])
              | .ok _ =>
                (.ok req.conversation_id user.owner nodes.length,
                 [.downloadAttempted, .processDocumentCalled, .dbInsertAttempted])

/-- Empty store, used to instantiate the universally quantified theorems. -/
def emptyStore : Store := { users := [], items := [], embeddings := [], nextId := 0 }

/-- Concrete document metadata. -/
def sampleMetadata : Metadata :=
  { file_name := "notes.txt", mime_type := "text/plain", uri := "drive://notes" }

/-- Two concrete embedded nodes. -/
def sampleNodes : List Node :=
  [ { page_label := some 1, content := "alpha", embedding := some [1] },
    { page_label := none, content := "beta", embedding := some [2] } ]

/-- Five concrete chunks for the batch-embedding scenario. -/
def chunks5 : List String := ["c0", "c1", "c2", "c3", "c4"]

/-- Provider oracle raising on calls 1 and 3 and truthy elsewhere
(the "2 failures out of 5" scenario). -/
def twoFailOracle : Nat → EmbedResult := fun i =>
  if i = 1 ∨ i = 3 then .raised else .value (some [7])

/-- The five chunks as pre-embedding nodes. -/
def rawNodes5 : List RawNode :=
  chunks5.map (fun c => { page_label := none, content := c })

/-- Provider oracle that always succeeds with a truthy vector. -/
def okOracle : Nat → EmbedResult := fun _ => .value (some [5])

/-- A concrete upload request. -/
def goodReq : DriveUrl :=
  { driver_id := "https://drive.example/file/abc", conversation_id := "conv-1" }

/-- The same request with a conversation id that exists nowhere in the store. -/
def badConvReq : DriveUrl :=
  { driver_id := "https://drive.example/file/abc", conversation_id := "no-such-conversation" }

/-- A verified token user. -/
def goodUser : TokenUser := { owner := "alice@example.com", verified := "true" }

/-- Concrete drive file metadata. -/
def sampleRawMeta : RawFileMeta :=
  { name := some "notes.txt", gid := some "abc",
    webViewLink := some "drive://notes", mimeType := some "text/plain" }

/-- A drive environment in which resolution and download always succeed with
a single file. -/
def goodEnv : GdriveEnv :=
  { resolve := fun _ => (some "abc", "file")
    download := fun _ => { success := true, files := some sampleRawMeta } }

/-- A load-and-split phase that succeeds with five raw nodes. -/
def goodLoaded : Except Unit (List RawNode) := .ok rawNodes5

/-- A text splitter whose `split_text` raises. -/
def raisingSplitter : String → Except Unit (List String) := fun _ => .error ()

/-!  Theorems.  -/

/-- When the fault oracle never fires on the traversed flushes, the embedding
flush loop succeeds and produces exactly one row per node, in order. -/
theorem flushEmbeddings_eq_map (itemId : Nat) (fault : Fault) (nodes : List Node)
    (start : Nat)
    (h : ∀ i, fault = .atEmbFlush i → i < start ∨ start + nodes.length ≤ i) :
    flushEmbeddings itemId fault nodes start = some (nodes.map (mkEmbedding itemId)) := by
  induction nodes generalizing start with
  | nil => rfl
  | cons n rest ih =>
    have hne : fault ≠ Fault.atEmbFlush start := by
      intro hf
      rcases h start hf with h1 | h2
      · omega
      · simp only [List.length_cons] at h2
        omega
    have hrec : ∀ i, fault = .atEmbFlush i → i < start + 1 ∨ (start + 1) + rest.length ≤ i := by
      intro i hf
      rcases h i hf with h1 | h2
      · left; omega
      · right
        have h2' : start + (rest.length + 1) ≤ i := by simpa using h2
        omega
    simp only [flushEmbeddings, if_neg hne, ih (start + 1) hrec, List.map_cons]

/-- When the fault oracle fires at a flush the loop actually reaches, the loop
raises (returns `none`). -/
theorem flushEmbeddings_raises (itemId : Nat) (i : Nat) (nodes : List Node)
    (start : Nat) (h1 : start ≤ i) (h2 : i < start + nodes.length) :
    flushEmbeddings itemId (.atEmbFlush i) nodes start = none := by
  induction nodes generalizing start with
  | nil =>
    have : i < start := by simpa using h2
    omega
  | cons n rest ih =>
    by_cases hc : i = start
    · subst hc
      simp [flushEmbeddings]
    · have hlt1 : start + 1 ≤ i := by omega
      have hlt2 : i < (start + 1) + rest.length := by
        have h2' : i < start + (rest.length + 1) := by simpa using h2
        omega
      have hne : Fault.atEmbFlush i ≠ Fault.atEmbFlush start := by
        simp [hc]
      simp only [flushEmbeddings, if_neg hne, ih (start + 1) hlt1 hlt2]

/-- C1: Any exception while inserting the Item row, inserting an Embedding
row, or committing rolls the whole transaction back — the call returns `None`
and the store holds no row from the attempt; on success the call returns the
persisted Item, which is in the store. -/
theorem insert_document_atomic_rollback (store : Store) (nodes : List Node)
    (metadata : Metadata) (owner_id conversation_id : Nat) (fault : Fault) :
    (fault.triggers nodes.length = true →
      insert_document_with_embeddings store nodes metadata owner_id conversation_id fault
        = (none, store)) ∧
    (fault.triggers nodes.length = false →
      ∃ item,
        (insert_document_with_embeddings store nodes metadata owner_id conversation_id fault).1
          = some item ∧
        item ∈ (insert_document_with_embeddings store nodes metadata owner_id conversation_id fault).2.items) := by
  constructor
  · intro ht
    cases fault with
    | noFault => simp [Fault.triggers] at ht
    | atItemFlush => simp [insert_document_with_embeddings]
    | atEmbFlush i =>
      have hi : i < nodes.length := by simpa [Fault.triggers] using ht
      have hraise := flushEmbeddings_raises store.nextId i nodes 0 (Nat.zero_le i) (by omega)
      simp [insert_document_with_embeddings, hraise]
    | atCommit =>
      have hflush := flushEmbeddings_eq_map store.nextId .atCommit nodes 0 (by intro i hf; cases hf)
      simp [insert_document_with_embeddings, hflush]
  · intro hf
    cases fault with
    | noFault =>
      have hflush := flushEmbeddings_eq_map store.nextId .noFault nodes 0 (by intro i hi; cases hi)
      refine ⟨{ id := store.nextId, file_name := metadata.file_name,
                mime_type := metadata.mime_type, uri := metadata.uri,
                owner_id := owner_id, conversation_id := conversation_id }, ?_, ?_⟩ <;>
        simp [insert_document_with_embeddings, hflush]
    | atItemFlush => simp [Fault.triggers] at hf
    | atEmbFlush i =>
      have hge : nodes.length ≤ i := by simpa [Fault.triggers] using hf
      have hflush := flushEmbeddings_eq_map store.nextId (.atEmbFlush i) nodes 0 (by
        intro j hj
        cases hj
        right
        simpa using hge)
      refine ⟨{ id := store.nextId, file_name := metadata.file_name,
                mime_type := metadata.mime_type, uri := metadata.uri,
                owner_id := owner_id, conversation_id := conversation_id }, ?_, ?_⟩ <;>
        simp [insert_document_with_embeddings, hflush]
    | atCommit => simp [Fault.triggers] at hf

/-- Witness for C1 at a concrete store, node list and commit-time fault. -/
theorem insert_document_atomic_rollback_witness :
    insert_document_with_embeddings emptyStore sampleNodes sampleMetadata 1 2 .atCommit
      = (none, emptyStore) :=
  (insert_document_atomic_rollback emptyStore sampleNodes sampleMetadata 1 2 .atCommit).1
    (by decide)

/-- Every row built by `mkEmbedding itemId` carries `item_id = itemId`, so the
filter by that id keeps one row per node. -/
theorem filter_map_mkEmbedding_length (itemId : Nat) (nodes : List Node) :
    ((nodes.map (mkEmbedding itemId)).filter (fun e => e.item_id == itemId)).length
      = nodes.length := by
  induction nodes with
  | nil => rfl
  | cons n rest ih => simp [mkEmbedding, ih]

/-- C2: A successful call inserts exactly one Embedding row per node, each
referencing the new Item's identifier; given that no pre-existing row carries
the freshly generated id, the stored row count for the new Item equals the
number of surviving chunks. -/
theorem insert_document_one_row_per_node (store : Store) (nodes : List Node)
    (metadata : Metadata) (owner_id conversation_id : Nat)
    (hfresh : ∀ e ∈ store.embeddings, e.item_id ≠ store.nextId) :
    ∃ item,
      (insert_document_with_embeddings store nodes metadata owner_id conversation_id .noFault).1
        = some item ∧
      (insert_document_with_embeddings store nodes metadata owner_id conversation_id .noFault).2.embeddings
        = store.embeddings ++ nodes.map (mkEmbedding item.id) ∧
      (((insert_document_with_embeddings store nodes metadata owner_id conversation_id .noFault).2.embeddings).filter
          (fun e => e.item_id == item.id)).length = nodes.length := by
  have hflush := flushEmbeddings_eq_map store.nextId .noFault nodes 0 (by intro i hi; cases hi)
  refine ⟨{ id := store.nextId, file_name := metadata.file_name,
            mime_type := metadata.mime_type, uri := metadata.uri,
            owner_id := owner_id, conversation_id := conversation_id }, ?_, ?_, ?_⟩
  · simp [insert_document_with_embeddings, hflush]
  · simp [insert_document_with_embeddings, hflush]
  · simp only [insert_document_with_embeddings, hflush]
    have hold : store.embeddings.filter (fun e => e.item_id == store.nextId) = [] := by
      apply List.filter_eq_nil_iff.mpr
      intro e he
      simpa using hfresh e he
    simp [List.filter_append, hold, filter_map_mkEmbedding_length]

/-- Witness for C2 at a concrete store and two concrete nodes. -/
theorem insert_document_one_row_per_node_witness :
    ∃ item,
      (insert_document_with_embeddings emptyStore sampleNodes sampleMetadata 1 2 .noFault).1
        = some item ∧
      (insert_document_with_embeddings emptyStore sampleNodes sampleMetadata 1 2 .noFault).2.embeddings
        = emptyStore.embeddings ++ sampleNodes.map (mkEmbedding item.id) ∧
      (((insert_document_with_embeddings emptyStore sampleNodes sampleMetadata 1 2 .noFault).2.embeddings).filter
          (fun e => e.item_id == item.id)).length = sampleNodes.length :=
  insert_document_one_row_per_node emptyStore sampleNodes sampleMetadata 1 2 (by decide)

/-- C7: `_chunk_text` returns the splitter's chunks when splitting succeeds
and exactly `[text]` when the splitter raises; being a total function into
`List String`, it never propagates an exception. -/
theorem chunk_text_fallback (splitText : String → Except Unit (List String))
    (text : String) :
    (splitText text = .error () → chunk_text splitText text = [text]) ∧
    (∀ cs, splitText text = .ok cs → chunk_text splitText text = cs) := by
  constructor
  · intro h; simp [chunk_text, h]
  · intro cs h; simp [chunk_text, h]

/-- Witness for C7 with a splitter that raises. -/
theorem chunk_text_fallback_witness :
    chunk_text raisingSplitter "hello world" = ["hello world"] :=
  (chunk_text_fallback raisingSplitter "hello world").1 rfl

/-- C8: Starting from a store with no user for the given owner key, the first
`get_or_create_user` call creates one user with that email and the display
name derived from the key, leaving exactly one matching row; the second call
returns that existing user and leaves the store unchanged. -/
theorem get_or_create_user_idempotent (store : Store) (email : String)
    (hnone : ∀ u ∈ store.users, u.email ≠ email) :
    ((get_or_create_user store email none).2.users.filter
        (fun u => u.email == email)).length = 1 ∧
    (get_or_create_user store email none).1.email = email ∧
    (get_or_create_user store email none).1.display_name = emailLocalPart email ∧
    get_or_create_user (get_or_create_user store email none).2 email none
      = ((get_or_create_user store email none).1,
         (get_or_create_user store email none).2) := by
  have hfind : store.users.find? (fun u => u.email == email) = none := by
    apply List.find?_eq_none.mpr
    intro u hu
    simpa using hnone u hu
  have holdfilter : store.users.filter (fun u => u.email == email) = [] := by
    apply List.filter_eq_nil_iff.mpr
    intro u hu
    simpa using hnone u hu
  refine ⟨?_, ?_, ?_, ?_⟩
  · simp [get_or_create_user, hfind, List.filter_append, holdfilter]
  · simp [get_or_create_user, hfind]
  · simp [get_or_create_user, hfind]
  · simp [get_or_create_user, hfind, List.find?_append]

/-- Witness for C8 at an empty store and a concrete owner key. -/
theorem get_or_create_user_idempotent_witness :
    ((get_or_create_user emptyStore "alice@example.com" none).2.users.filter
        (fun u => u.email == "alice@example.com")).length = 1 ∧
    (get_or_create_user emptyStore "alice@example.com" none).1.email = "alice@example.com" ∧
    (get_or_create_user emptyStore "alice@example.com" none).1.display_name
      = emailLocalPart "alice@example.com" ∧
    get_or_create_user (get_or_create_user emptyStore "alice@example.com" none).2
        "alice@example.com" none
      = ((get_or_create_user emptyStore "alice@example.com" none).1,
         (get_or_create_user emptyStore "alice@example.com" none).2) :=
  get_or_create_user_idempotent emptyStore "alice@example.com" (by
    intro u hu
    simp [emptyStore] at hu)

/-- When every table creation succeeds, the creation loop appends the tables
in list order and reports one creation event per table, in order. -/
theorem createTables_all_ok (createOk : String → Bool) (ts : List String)
    (s : SchemaState) (h : ∀ t ∈ ts, createOk t = true) :
    createTables createOk ts s
      = .ok ({ tables := s.tables ++ ts }, ts.map InitEvent.created) := by
  induction ts generalizing s with
  | nil => simp [createTables]
  | cons t rest ih =>
    have ht : createOk t = true := h t (List.mem_cons_self t rest)
    have hrest : ∀ u ∈ rest, createOk u = true := fun u hu => h u (List.mem_cons_of_mem t hu)
    simp [createTables, ht, ih { tables := s.tables ++ [t] } hrest]

/-- After appending all required tables, verification reduces to whether the
catalog queries succeed. -/
theorem verify_after_create (connOk : Bool) (pre : List String) :
    verify_tables connOk { tables := pre ++ requiredTables } = connOk := by
  cases connOk with
  | false => rfl
  | true =>
    simp only [verify_tables, Bool.true_and]
    apply List.all_eq_true.mpr
    intro t ht
    exact List.elem_eq_true_of_mem (List.mem_append_right pre ht)

/-- C9: If startup verification fails, the constructor drops all core tables
and recreates them in dependency order users, conversations, items,
embeddings, messages, then re-verifies; the constructor raises exactly when
that second verification fails. -/
theorem db_init_bootstrap (s : SchemaState) (verifyConnOk : Nat → Bool)
    (createOk : String → Bool)
    (hfail : verify_tables (verifyConnOk 0) s = false)
    (hcreate : ∀ t ∈ requiredTables, createOk t = true) :
    (verifyConnOk 1 = true →
      db_init s verifyConnOk createOk
        = .ok ({ tables := (dropCoreTables s).tables ++ requiredTables },
               .dropAll :: requiredTables.map InitEvent.created)) ∧
    (verifyConnOk 1 = false →
      db_init s verifyConnOk createOk = .error .verifyFailed) := by
  have hct := createTables_all_ok createOk requiredTables (dropCoreTables s) hcreate
  constructor
  · intro hv
    simp [db_init, hfail, hct, verify_after_create, hv]
  · intro hv
    simp [db_init, hfail, hct, verify_after_create, hv]

/-- Witness for C9 on an empty catalog with working connections: the first
verification fails, the five tables are created in order, and startup
succeeds. -/
theorem db_init_bootstrap_witness :
    db_init { tables := [] } (fun _ => true) (fun _ => true)
      = .ok ({ tables := (dropCoreTables { tables := [] }).tables ++ requiredTables },
             .dropAll :: requiredTables.map InitEvent.created) :=
  (db_init_bootstrap { tables := [] } (fun _ => true) (fun _ => true)
    (by decide) (by decide)).1 rfl

/-- The batch-embedding loop keeps, for call numbers starting at `start`,
exactly the pairs whose provider call returns a truthy embedding. -/
theorem embedChunksAux_eq_filterMap (oracle : Nat → EmbedResult)
    (chunks : List String) (start : Nat) :
    embedChunksAux oracle chunks start
      = (chunks.enumFrom start).filterMap (fun p => keptPair oracle p.1 p.2) := by
  induction chunks generalizing start with
  | nil => rfl
  | cons c rest ih =>
    cases ho : oracle start with
    | raised =>
      simp [embedChunksAux, List.enumFrom, keptPair, ho, ih]
    | value v =>
      cases v with
      | none =>
        simp [embedChunksAux, List.enumFrom, keptPair, ho, ih]
      | some vec =>
        by_cases hv : vec = []
        · simp [embedChunksAux, List.enumFrom, keptPair, List.filterMap_cons, ho, hv, ih]
        · simp [embedChunksAux, List.enumFrom, keptPair, List.filterMap_cons, ho, hv, ih]

/-- C10: `embed_chunks` keeps exactly the chunks whose provider call returns
without raising and yields a truthy (non-`None`, non-empty) embedding — a
falsy return is excluded just like a raising call, as `keptPair` makes
explicit. -/
theorem embed_chunks_keeps_iff_truthy (oracle : Nat → EmbedResult)
    (chunks : List String) :
    embed_chunks oracle chunks
      = chunks.enum.filterMap (fun p => keptPair oracle p.1 p.2) :=
  embedChunksAux_eq_filterMap oracle chunks 0

/-- The batch-embedding loop, when every provider call either raises or
returns a truthy embedding, keeps exactly the non-raising chunks in order,
paired with their vectors. -/
theorem embedChunksAux_skips_raised (oracle : Nat → EmbedResult)
    (chunks : List String) (start : Nat)
    (h : ∀ i, start ≤ i → i < start + chunks.length →
      oracle i = .raised ∨ (oracle i).truthy = true) :
    embedChunksAux oracle chunks start
      = ((chunks.enumFrom start).filter (fun p => !(oracle p.1 == .raised))).map
          (fun p => (p.2, (oracle p.1).vecOf)) := by
  induction chunks generalizing start with
  | nil => rfl
  | cons c rest ih =>
    have hc := h start (Nat.le_refl start) (by simp)
    have hrest : ∀ i, start + 1 ≤ i → i < (start + 1) + rest.length →
        oracle i = .raised ∨ (oracle i).truthy = true := by
      intro i h1 h2
      apply h i (by omega)
      simp only [List.length_cons]
      omega
    rcases hc with hr | ht
    · simp [embedChunksAux, List.enumFrom, hr, ih _ hrest]
    · cases ho : oracle start with
      | raised => rw [ho] at ht; simp [EmbedResult.truthy] at ht
      | value v =>
        cases v with
        | none => rw [ho] at ht; simp [EmbedResult.truthy] at ht
        | some vec =>
          rw [ho] at ht
          have hv : vec.isEmpty = false := by
            simpa [EmbedResult.truthy] using ht
          simp [embedChunksAux, List.enumFrom, ho, hv, ih _ hrest,
            EmbedResult.vecOf, beq_iff_eq]

/-- C6 (amended): a raising provider call is skipped and the loop continues —
when every call either raises or returns a truthy embedding, `embed_chunks`
returns exactly the non-raising chunks, in order, with their vectors; with 2
raising calls out of 5 that leaves exactly 3 pairs (see the witness).  The
pairs are only returned, not stored: the ingestion flow's `process_document`
aborts the whole batch on any raising call (see the counterexample). -/
theorem embed_chunks_skips_raised (chunks : List String)
    (oracle : Nat → EmbedResult)
    (h : ∀ i, i < chunks.length → oracle i = .raised ∨ (oracle i).truthy = true) :
    embed_chunks oracle chunks
      = ((chunks.enum.filter (fun p => !(oracle p.1 == .raised))).map
          (fun p => (p.2, (oracle p.1).vecOf))) :=
  embedChunksAux_skips_raised oracle chunks 0
    (fun i _ h2 => h i (by simpa using h2))

/-- Witness for C6 (amended): 2 raising calls out of 5 chunks leave exactly
the 3 surviving (chunk, vector) pairs. -/
theorem embed_chunks_skips_raised_witness :
    embed_chunks twoFailOracle chunks5 = [("c0", [7]), ("c2", [7]), ("c4", [7])] :=
  (embed_chunks_skips_raised chunks5 twoFailOracle (by decide)).trans (by decide)

/-- Counterexample to C6 as stated: with the same 2-failures-in-5 provider,
`embed_chunks` does return 3 pairs, but the ingestion flow's
`process_document` (src/main.py lines 103-128) propagates the very first
raising call, aborting the whole document — even a single failure (call 1)
aborts it — so the surviving pairs are never stored. -/
theorem process_document_aborts_on_chunk_failure :
    (embed_chunks twoFailOracle chunks5).length = 3 ∧
    process_document (.ok rawNodes5) twoFailOracle = .error () :=
  ⟨by decide, rfl⟩

/-- C3 (divergence): on a fully successful environment — verified user,
single-file drive reference, successful download with metadata, successful
processing — `upload_file` still fails with a 500, because its database call
passes 2 positional arguments to the 4-parameter
`insert_document_with_embeddings` and so raises `TypeError`; the flow never
performs an identity-resolution call (`get_or_create_user`), so no caller ever
receives a persisted Item and a stored-chunk count. -/
theorem upload_file_never_succeeds :
    (upload_file goodReq goodUser goodEnv goodLoaded okOracle).1
      = .httpError 500 ∧
    UploadEvent.identityResolved ∉ (upload_file goodReq goodUser goodEnv goodLoaded okOracle).2 ∧
    UploadEvent.dbInsertAttempted ∈ (upload_file goodReq goodUser goodEnv goodLoaded okOracle).2 := by
  decide

/-- Counterexample to C4: with a conversation id that exists in no store
("no-such-conversation"), the call is not rejected before work begins — the
download, the document processing and the database insert attempt all happen. -/
theorem upload_not_rejected_on_bad_conversation :
    (upload_file badConvReq goodUser goodEnv goodLoaded okOracle).2
      = [.downloadAttempted, .processDocumentCalled, .dbInsertAttempted] := by
  decide

/-- C4 (amended): `upload_file` performs no conversation-id validation: for
any request by a verified user whose drive reference resolves to a single
file, the flow proceeds to the download step whatever the conversation id. -/
theorem upload_reaches_download_regardless_of_conversation (req : DriveUrl)
    (user : TokenUser) (env : GdriveEnv) (loaded : Except Unit (List RawNode))
    (oracle : Nat → EmbedResult) (fid : String)
    (hver : user.verified ≠ "")
    (hres : env.resolve req.driver_id = (some fid, "file")) :
    UploadEvent.downloadAttempted ∈ (upload_file req user env loaded oracle).2 := by
  unfold upload_file
  rw [if_neg hver, hres]
  simp only [ne_eq]
  rw [if_neg (by simp)]
  by_cases hdl : (env.download fid).success
  · simp only [hdl, Bool.not_true, Bool.false_eq_true, if_false]
    cases (env.download fid).files with
    | none => simp
    | some md =>
      cases process_document loaded oracle with
      | error e => simp
      | ok nodes => simp [insertCallTwoArgs]
  · simp [hdl]

/-- Witness for C4 (amended) at the concrete unknown-conversation request. -/
theorem upload_reaches_download_witness :
    UploadEvent.downloadAttempted
      ∈ (upload_file badConvReq goodUser goodEnv goodLoaded okOracle).2 :=
  upload_reaches_download_regardless_of_conversation badConvReq goodUser goodEnv
    goodLoaded okOracle "abc" (by decide) rfl

/-- Counterexample to C5: called with an empty surviving-chunk list and no
store fault, the Persistence Coordinator reports success and stores an Item
with zero Embedding rows, instead of failing wholesale. -/
theorem insert_document_empty_nodes_commits :
    (insert_document_with_embeddings emptyStore [] sampleMetadata 1 2 .noFault).1.isSome
      = true ∧
    (insert_document_with_embeddings emptyStore [] sampleMetadata 1 2 .noFault).2.items.length
      = 1 ∧
    (insert_document_with_embeddings emptyStore [] sampleMetadata 1 2 .noFault).2.embeddings
      = [] := by
  decide

/-- C5 (amended): an attempt whose surviving chunk list is empty does not
fail: for every store, the coordinator inserts the Item row, adds no
Embedding row, and returns the Item as success. -/
theorem insert_document_empty_nodes_succeeds (store : Store) (metadata : Metadata)
    (owner_id conversation_id : Nat) :
    (insert_document_with_embeddings store [] metadata owner_id conversation_id .noFault).1.isSome
      = true ∧
    (insert_document_with_embeddings store [] metadata owner_id conversation_id .noFault).2.items.length
      = store.items.length + 1 ∧
    (insert_document_with_embeddings store [] metadata owner_id conversation_id .noFault).2.embeddings
      = store.embeddings := by
  refine ⟨?_, ?_, ?_⟩ <;> simp [insert_document_with_embeddings, flushEmbeddings]

end DriveChat
